import Mathlib

set_option maxRecDepth 20000

/-!
Verification development for the parameter-scan campaign generator
(`001_make_folders.py`) and its base build job
(`1_build_distr_and_collider.py`).

Number representation: the source rounds every scanned tune value to 4
decimal places (`np.round(..., decimals=4)`) precisely so that the grid
values behave as exact decimals; after that rounding every value handled
by the scan loop is an exact integer multiple of 1e-4, and every
comparison made by the code is at distance at least 1e-4 from the pruning
threshold, far above double-precision error.  The embedding therefore
represents tune values as exact integers in units of 1e-4 (so `62.305` is
`623050`), which makes the development decidable by computation while
deciding every comparison exactly as the floating-point program does.
Other configuration numbers are represented as exact decimals
`mant * 10 ^ (-exp)` by the pair type `Dec` below.
-/

/-- An exact decimal number `mant * 10 ^ (-exp)`, the form in which every
numeric literal of the configuration files appears in the source. -/
structure Dec where
  mant : ℤ
  exp : Nat
deriving DecidableEq

/-- The rational value denoted by a `Dec`. -/
def Dec.toRat (d : Dec) : ℚ := (d.mant : ℚ) / 10 ^ d.exp

/-- Embedding of `np.round(np.arange(start, stop, step), decimals=4)`, all
quantities as exact integers in units of 1e-4 (`step > 0`): the values
`start + k * step` for `k < ⌈(stop - start) / step⌉`.  The produced values
are exact multiples of the step, so the 4-decimal rounding of the source
is the identity on them and is absorbed by the integer representation. -/
def arange4 (start stop step : ℤ) : List ℤ :=
  (List.range (Int.toNat ((stop - start + step - 1) / step))).map
    (fun k => start + step * k)

/-- Source: `array_qx = np.round(np.arange(62.305, 62.330, 0.001), decimals=4)[:6]`,
in units of 1e-4. -/
def array_qx : List ℤ := (arange4 623050 623300 10).take 6

/-- Source: `array_qy = np.round(np.arange(60.305, 60.330, 0.001), decimals=4)[:6]`,
in units of 1e-4. -/
def array_qy : List ℤ := (arange4 603050 603300 10).take 6

/-- Source: `d_config_particles["n_split"] = 5`. -/
def n_split : Nat := 5

/-- Source: `track_array = np.arange(d_config_particles["n_split"])`. -/
def track_array : List Nat := List.range n_split

/-- Source: `only_keep_upper_triangle = True`. -/
def only_keep_upper_triangle : Bool := true

/-- Source: `n_turns = 500`. -/
def n_turns : Nat := 500

/-- Source: `delta_max = 27.0e-5`. -/
def delta_max : Dec := ⟨27, 5⟩

/-- Zero-padded decimal rendering, as the Python format spec
`f"{n:0w}"` produces for a nonnegative integer `n`. -/
def pad (w n : Nat) : String :=
  let s := toString n
  String.mk (List.replicate (w - s.length) '0') ++ s

/-- Row-major cartesian product of three lists, in the order
`itertools.product(xs, ys, zs)` yields its tuples. -/
def product3 {α β γ : Type} (xs : List α) (ys : List β) (zs : List γ) :
    List (α × β × γ) :=
  xs.flatMap (fun x => ys.flatMap (fun y => zs.map (fun z => (x, y, z))))

/-- One second-generation leaf dictionary, as assembled in the scan loop of
`001_make_folders.py`; `qx`, `qy` are the scanned tune values (units of
1e-4) that the leaf stores under `parameters_scanned.group_2`. -/
structure LeafNode where
  qx : ℤ
  qy : ℤ
  particle_file : String
  collider_file : String
  turns : Nat
  dmax : Dec
  log_file : String
deriving DecidableEq

/-- The key/leaf pair written by one kept iteration of the scan loop:
key `xtrack_<idx:04>`, particle file `../particles/<track:02>.parquet`,
collider file `../collider/collider.json`. -/
def mkLeaf (idx : Nat) (track : Nat) (qx qy : ℤ) : String × LeafNode :=
  ("xtrack_" ++ pad 4 idx,
   ⟨qx, qy,
    "../particles/" ++ pad 2 track ++ ".parquet",
    "../collider/collider.json",
    n_turns, delta_max,
    "tree_maker.log"⟩)

/-- The keep/skip decision of the scan loop: when `onlyUpper` is set, the
combination is skipped exactly when `qy < qx - 2 + 0.0039`; in units of
1e-4 the threshold is `qx - 20000 + 39`. -/
def keepPair (onlyUpper : Bool) (qx qy : ℤ) : Bool :=
  !(onlyUpper && decide (qy < qx - 20000 + 39))

/-- The body of the scan loop applied to one enumerated tuple
`(idx_job, (track, qx, qy))`: `none` when the combination is pruned,
otherwise the key/leaf pair inserted into the children mapping. -/
def scanStep (onlyUpper : Bool) (p : Nat × Nat × ℤ × ℤ) :
    Option (String × LeafNode) :=
  if keepPair onlyUpper p.2.2.1 p.2.2.2 then
    some (mkLeaf p.1 p.2.1 p.2.2.1 p.2.2.2)
  else none

/-- The second-generation children mapping produced by the loop
`for idx_job, (track, qx, qy) in enumerate(itertools.product(...))`,
as an association list in insertion order. -/
def scanChildren (tracks : List Nat) (qxs qys : List ℤ) (onlyUpper : Bool) :
    List (String × LeafNode) :=
  ((product3 tracks qxs qys).enum).filterMap (scanStep onlyUpper)

/-- Reference enumeration written from the words of the spec alone: row-major
iteration over the declared axes (split index, then qx, then qy), the
index key of the combination at position `(a, i, j)` being the row-major
rank `a * (|qxs| * |qys|) + i * |qys| + j` in the full product, so that
the index-to-parameter correspondence is pure arithmetic on the spec. -/
def gridSpec (tracks : List Nat) (qxs qys : List ℤ) (onlyUpper : Bool) :
    List (String × LeafNode) :=
  (List.range tracks.length).flatMap (fun a =>
    (List.range qxs.length).flatMap (fun i =>
      (List.range qys.length).filterMap (fun j =>
        scanStep onlyUpper
          (a * (qxs.length * qys.length) + i * qys.length + j,
           tracks.getD a 0, qxs.getD i 0, qys.getD j 0))))

/-- Helper: congruence for `filterMap` under a pointwise equality on the list. -/
theorem filterMap_congr_mem {α β : Type} {l : List α} {f g : α → Option β}
    (h : ∀ a ∈ l, f a = g a) : l.filterMap f = l.filterMap g := by
  induction l with
  | nil => rfl
  | cons a l ih =>
      rw [List.filterMap_cons, List.filterMap_cons, h a (List.mem_cons_self a l),
        ih (fun x hx => h x (List.mem_cons_of_mem a hx))]

/-- Helper: congruence for `flatMap` under a pointwise equality on the list. -/
theorem flatMap_congr_mem {α β : Type} {l : List α} {f g : α → List β}
    (h : ∀ a ∈ l, f a = g a) : l.flatMap f = l.flatMap g := by
  induction l with
  | nil => rfl
  | cons a l ih =>
      rw [List.flatMap_cons, List.flatMap_cons, h a (List.mem_cons_self a l),
        ih (fun x hx => h x (List.mem_cons_of_mem a hx))]

/-- Helper: `enumFrom` distributes over append, shifting the start index. -/
theorem enumFrom_append {α : Type} :
    ∀ (l1 l2 : List α) (k : Nat),
      (l1 ++ l2).enumFrom k = l1.enumFrom k ++ l2.enumFrom (k + l1.length)
  | [], l2, k => by simp
  | a :: l1, l2, k => by
      rw [List.cons_append, List.enumFrom_cons, List.enumFrom_cons,
        enumFrom_append l1 l2 (k + 1), List.length_cons]
      have h : k + 1 + l1.length = k + (l1.length + 1) := by omega
      rw [h, List.cons_append]

/-- Helper: length of the two-axis block of the product. -/
theorem length_inner_block (t : Nat) :
    ∀ (ys zs : List ℤ),
      ((ys.flatMap (fun y => zs.map (fun z => (t, y, z)))).length)
        = ys.length * zs.length
  | [], zs => by simp [List.flatMap]
  | y :: ys, zs => by
      rw [List.flatMap_cons, List.length_append, List.length_map,
        length_inner_block t ys zs, List.length_cons, Nat.succ_mul, Nat.add_comm]

/-- Innermost level of the scan-loop enumeration: iterating the qy axis with
a running index starting at `k`. -/
theorem scan_enum_qy (b : Bool) (t : Nat) (qx : ℤ) :
    ∀ (zs : List ℤ) (k : Nat),
      ((zs.map (fun z => (t, qx, z))).enumFrom k).filterMap (scanStep b)
        = (List.range zs.length).filterMap
            (fun j => scanStep b (k + j, t, qx, zs.getD j 0))
  | [], _ => rfl
  | z :: zs, k => by
      rw [List.map_cons, List.enumFrom_cons, List.length_cons,
        List.range_succ_eq_map]
      simp only [List.filterMap_cons, List.filterMap_map]
      have harg :
          ((fun j => scanStep b (k + j, t, qx, (z :: zs).getD j 0)) ∘ Nat.succ)
            = fun j => scanStep b ((k + 1) + j, t, qx, zs.getD j 0) := by
        funext j
        simp only [Function.comp_apply, List.getD_cons_succ]
        have h : k + (j + 1) = (k + 1) + j := by omega
        rw [Nat.succ_eq_add_one, h]
      rw [harg, scan_enum_qy b t qx zs (k + 1)]
      simp only [List.getD_cons_zero, Nat.add_zero]

/-- Middle level of the scan-loop enumeration: iterating the qx axis, each
step advancing the running index by `|qys|`. -/
theorem scan_enum_qx (b : Bool) (t : Nat) (zs : List ℤ) :
    ∀ (ys : List ℤ) (k : Nat),
      ((ys.flatMap (fun y => zs.map (fun z => (t, y, z)))).enumFrom k).filterMap
          (scanStep b)
        = (List.range ys.length).flatMap (fun i =>
            (List.range zs.length).filterMap (fun j =>
              scanStep b (k + i * zs.length + j, t, ys.getD i 0, zs.getD j 0)))
  | [], _ => rfl
  | y :: ys, k => by
      rw [List.flatMap_cons, enumFrom_append, List.filterMap_append,
        List.length_map, List.length_cons, List.range_succ_eq_map,
        List.flatMap_cons, List.flatMap_map,
        scan_enum_qy b t y zs k, scan_enum_qx b t zs ys (k + zs.length)]
      congr 1
      · apply filterMap_congr_mem
        intro j _
        rw [List.getD_cons_zero]
        have h : k + 0 * zs.length + j = k + j := by
          rw [Nat.zero_mul]; omega
        rw [h]
      · apply flatMap_congr_mem
        intro a _
        apply filterMap_congr_mem
        intro j _
        simp only [Nat.succ_eq_add_one, List.getD_cons_succ]
        have h : k + (a + 1) * zs.length + j
            = k + zs.length + a * zs.length + j := by ring
        rw [h]

/-- Outer level of the scan-loop enumeration: iterating the split axis, each
step advancing the running index by `|qxs| * |qys|`. -/
theorem scan_enum_tracks (b : Bool) (qxs qys : List ℤ) :
    ∀ (ts : List Nat) (k : Nat),
      ((product3 ts qxs qys).enumFrom k).filterMap (scanStep b)
        = (List.range ts.length).flatMap (fun a =>
            (List.range qxs.length).flatMap (fun i =>
              (List.range qys.length).filterMap (fun j =>
                scanStep b (k + a * (qxs.length * qys.length)
                    + i * qys.length + j,
                  ts.getD a 0, qxs.getD i 0, qys.getD j 0))))
  | [], _ => rfl
  | t :: ts, k => by
      rw [product3, List.flatMap_cons, enumFrom_append, List.filterMap_append,
        length_inner_block t qxs qys, List.length_cons, List.range_succ_eq_map,
        List.flatMap_cons, List.flatMap_map, scan_enum_qx b t qys qxs k]
      have hrest := scan_enum_tracks b qxs qys ts (k + qxs.length * qys.length)
      rw [product3] at hrest
      rw [hrest]
      congr 1
      · apply flatMap_congr_mem
        intro i _
        apply filterMap_congr_mem
        intro j _
        rw [List.getD_cons_zero]
        have h : k + 0 * (qxs.length * qys.length) + i * qys.length + j
            = k + i * qys.length + j := by
          rw [Nat.zero_mul]; omega
        rw [h]
      · apply flatMap_congr_mem
        intro a _
        apply flatMap_congr_mem
        intro i _
        apply filterMap_congr_mem
        intro j _
        simp only [Nat.succ_eq_add_one, List.getD_cons_succ]
        have h : k + (a + 1) * (qxs.length * qys.length) + i * qys.length + j
            = k + qxs.length * qys.length + a * (qxs.length * qys.length)
              + i * qys.length + j := by ring
        rw [h]

/-- C1: for every scan specification, the second-generation children are
generated in row-major cartesian-product order over the declared axes
(split index, then qx, then qy): the output of the loop equals the spec-side
enumeration `gridSpec`, in which the combination at axis position
`(a, i, j)` receives the zero-padded key `xtrack_<n:04>` with
`n = a * (|qxs| * |qys|) + i * |qys| + j`, so keys are monotonically
increasing and the index-to-parameter correspondence is plain arithmetic
on the spec; as a pure function of the spec, re-running the generation
yields the identical ordered sequence of keys and parameter values. -/
theorem C1_row_major_index_keys (tracks : List Nat) (qxs qys : List ℤ)
    (onlyUpper : Bool) :
    scanChildren tracks qxs qys onlyUpper = gridSpec tracks qxs qys onlyUpper := by
  rw [scanChildren, gridSpec, List.enum_eq_enumFrom,
    scan_enum_tracks onlyUpper qxs qys tracks 0]
  apply flatMap_congr_mem
  intro a _
  apply flatMap_congr_mem
  intro i _
  apply filterMap_congr_mem
  intro j _
  have h : 0 + a * (qxs.length * qys.length) + i * qys.length + j
      = a * (qxs.length * qys.length) + i * qys.length + j := by omega
  rw [h]

/-- Helper: the pruned scan equals the unpruned scan filtered by the
upper-triangle predicate on the tune values stored in the leaf. -/
theorem scan_prune_filter :
    ∀ (l : List (Nat × Nat × ℤ × ℤ)),
      l.filterMap (scanStep true)
        = (l.filterMap (scanStep false)).filter
            (fun p => !(decide (p.2.qy < p.2.qx - 20000 + 39)))
  | [] => rfl
  | (n, t, qx, qy) :: l => by
      have h2 : scanStep false (n, t, qx, qy) = some (mkLeaf n t qx qy) := rfl
      by_cases hq : qy < qx - 20000 + 39
      · have h1 : scanStep true (n, t, qx, qy) = none := by
          simp [scanStep, keepPair, hq]
        rw [List.filterMap_cons_none h1, List.filterMap_cons_some h2,
          List.filter_cons, scan_prune_filter l]
        simp [mkLeaf, hq]
      · have h1 : scanStep true (n, t, qx, qy) = some (mkLeaf n t qx qy) := by
          simp [scanStep, keepPair, hq]
        rw [List.filterMap_cons_some h1, List.filterMap_cons_some h2,
          List.filter_cons, scan_prune_filter l]
        simp [mkLeaf, hq]

/-- C2: with the upper-triangle rule enabled, a combination `(split, qx, qy)`
produces a leaf exactly when `qy` is not below `qx - 2 + 0.0039` (in units
of 1e-4: not below `qx - 20000 + 39`): the pruned children list is the
unpruned one filtered by that predicate, so excluded combinations are
skipped entirely (no empty node appears in the mapping) and the relative
order of the kept combinations is preserved. -/
theorem C2_upper_triangle_iff (tracks : List Nat) (qxs qys : List ℤ) :
    scanChildren tracks qxs qys true
      = (scanChildren tracks qxs qys false).filter
          (fun p => !(decide (p.2.qy < p.2.qx - 20000 + 39))) :=
  scan_prune_filter ((product3 tracks qxs qys).enum)

/-- Helper: `flatMap` of the constant empty list is empty. -/
theorem flatMap_nil_fun {α β : Type} :
    ∀ (l : List α), l.flatMap (fun _ => ([] : List β)) = []
  | [] => rfl
  | a :: l => by rw [List.flatMap_cons, flatMap_nil_fun l]; rfl

/-- Helper: the product with an empty middle axis is empty. -/
theorem product3_nil_mid {α β γ : Type} :
    ∀ (xs : List α) (zs : List γ), product3 xs ([] : List β) zs = []
  | [], _ => rfl
  | x :: xs, zs => by
      have ih := product3_nil_mid (β := β) xs zs
      rw [product3] at ih ⊢
      rw [List.flatMap_cons, ih]
      rfl

/-- Helper: the product with an empty last axis is empty. -/
theorem product3_nil_right {α β γ : Type} (xs : List α) (ys : List β) :
    product3 xs ys ([] : List γ) = [] := by
  rw [product3]
  have h1 : ∀ x ∈ xs,
      (ys.flatMap (fun y => ([] : List γ).map (fun z => (x, y, z))))
        = ([] : List (α × β × γ)) := by
    intro x _
    have h2 : ∀ y ∈ ys,
        (([] : List γ).map (fun z => (x, y, z))) = ([] : List (α × β × γ)) :=
      fun _ _ => rfl
    rw [flatMap_congr_mem h2, flatMap_nil_fun]
  rw [flatMap_congr_mem h1, flatMap_nil_fun]

/-- The qx axis of the boundary example of the claim: a numeric range with
`start = stop = 1.0` (units of 1e-4), whose expansion yields zero
elements. -/
def empty_qx_axis : List ℤ := (arange4 10000 10000 10).take 6

/-- C8 counterexample: running the generator with an axis whose expansion
yields zero elements does not fail — the scan loop silently produces an
empty children mapping (the generator has no error path at all), contrary
to the claimed `InvalidGridSpec` failure. -/
theorem C8_counterexample_silent_empty :
    empty_qx_axis = []
    ∧ scanChildren track_array empty_qx_axis array_qy only_keep_upper_triangle
        = [] := by
  constructor
  · rfl
  · rfl

/-- C8 amended: an axis specification with zero elements yields a silently
empty scan — the second-generation children mapping is empty and no error
is raised (the generation is a total function with no failure outcome). -/
theorem C8_amended_empty_axis_empty_scan (tracks : List Nat) (qxs qys : List ℤ)
    (onlyUpper : Bool) :
    scanChildren tracks [] qys onlyUpper = []
    ∧ scanChildren tracks qxs [] onlyUpper = [] := by
  constructor
  · simp only [scanChildren]
    rw [product3_nil_mid]
    rfl
  · simp only [scanChildren]
    rw [product3_nil_right]
    rfl

/-- A configuration value: the JSON/YAML-like nested dictionaries the
generator assembles — numbers as exact decimals, strings, booleans,
Python `None`, and nested string-keyed dictionaries in insertion order. -/
inductive CVal : Type where
  | num (d : Dec)
  | str (s : String)
  | bool (b : Bool)
  | null
  | obj (fields : List (String × CVal))

/-- Lookup of a key in a field list (dictionaries never hold duplicate
keys, so first match). -/
def getField : List (String × CVal) → String → Option CVal
  | [], _ => none
  | (k0, v) :: fs, k => if k0 = k then some v else getField fs k

/-- Lookup of a key in a configuration value (`none` on non-dictionaries). -/
def CVal.get : CVal → String → Option CVal
  | CVal.obj fs, k => getField fs k
  | _, _ => none

/-- Lookup along a path of keys. -/
def lookupPath : CVal → List String → Option CVal
  | v, [] => some v
  | v, k :: ks =>
      match v.get k with
      | some w => lookupPath w ks
      | none => none

/-- The exact decimal at a path, when the path leads to a number. -/
def numAt (v : CVal) (path : List String) : Option Dec :=
  match lookupPath v path with
  | some (CVal.num d) => some d
  | _ => none

/-- The field names at a path, when the path leads to a dictionary. -/
def keysAt (v : CVal) (path : List String) : Option (List String) :=
  match lookupPath v path with
  | some (CVal.obj fs) => some (fs.map Prod.fst)
  | _ => none

/-- Python dict assignment `d[k] = v`: replaces the value in place when the
key exists (preserving insertion order), appends otherwise. -/
def setField (fs : List (String × CVal)) (k : String) (v : CVal) :
    List (String × CVal) :=
  if (fs.map Prod.fst).contains k then
    fs.map (fun p => if p.1 = k then (k, v) else p)
  else fs ++ [(k, v)]

/-- Modelled from the spec: the configuration resolution performed by the
external tree-maker library (not part of this repository) —
"configuration at a node is the deep-merge of the configuration of its
ancestors with its own overrides".  Two dictionaries merge key by key (override
values replacing or recursively merging base values, new override keys
appended after the base keys); any other override value replaces the base
value.  The `fuel` argument bounds the recursion depth so the function is
structurally recursive. -/
def deepMergeF : Nat → CVal → CVal → CVal
  | 0, _, b => b
  | fuel + 1, CVal.obj fs, CVal.obj gs =>
      CVal.obj
        ((fs.map (fun p =>
            match getField gs p.1 with
            | some w => (p.1, deepMergeF fuel p.2 w)
            | none => p))
          ++ gs.filter (fun g => !((fs.map Prod.fst).contains g.1)))
  | _ + 1, _, b => b

/-- Deep merge with ample fuel: the configurations in this development nest
at most 6 levels, far below the bound, so this computes the exact deep
merge on them. -/
def deepMerge (a b : CVal) : CVal := deepMergeF 100 a b

/-- Source dict `d_config_particles`: radius bounds, `n_r = 2*16*(r_max -
r_min)`, number of angles, and the parallelization split count. -/
def d_config_particles : List (String × CVal) :=
  [("r_min", CVal.num ⟨2, 0⟩),
   ("r_max", CVal.num ⟨10, 0⟩),
   ("n_r", CVal.num ⟨2 * 16 * (10 - 2), 0⟩),
   ("n_angles", CVal.num ⟨5, 0⟩),
   ("n_split", CVal.num ⟨5, 0⟩)]

/-- Source dict `d_config_mad` after its assignments: the beam configuration
with `beam_energy_tot = 7000` for both beams, and the optics file path. -/
def d_config_mad : List (String × CVal) :=
  [("beam_config",
    CVal.obj
      [("lhcb1", CVal.obj [("beam_energy_tot", CVal.num ⟨7000, 0⟩)]),
       ("lhcb2", CVal.obj [("beam_energy_tot", CVal.num ⟨7000, 0⟩)])]),
   ("optics_file",
    CVal.str ("acc-models-lhc/flatcc/opt_flathv_75_180_1500_thin.madx"))]

/-- Source dict `d_config_tune_and_chroma` after the per-beam loop and the
coupling-knob assignments: `qx = 62.31`, `qy = 60.32`, `dqx = dqy = 5.0`
for both beams, `delta_cmr = 0.001`, `delta_cmi = 0.0`. -/
def d_config_tune_and_chroma : List (String × CVal) :=
  [("qx",
    CVal.obj [("lhcb1", CVal.num ⟨6231, 2⟩), ("lhcb2", CVal.num ⟨6231, 2⟩)]),
   ("qy",
    CVal.obj [("lhcb1", CVal.num ⟨6032, 2⟩), ("lhcb2", CVal.num ⟨6032, 2⟩)]),
   ("dqx",
    CVal.obj [("lhcb1", CVal.num ⟨50, 1⟩), ("lhcb2", CVal.num ⟨50, 1⟩)]),
   ("dqy",
    CVal.obj [("lhcb1", CVal.num ⟨50, 1⟩), ("lhcb2", CVal.num ⟨50, 1⟩)]),
   ("delta_cmr", CVal.num ⟨1, 3⟩),
   ("delta_cmi", CVal.num ⟨0, 1⟩)]

/-- Source dict `d_config_knobs`: IP knobs, crab cavities, octupoles. -/
def d_config_knobs : List (String × CVal) :=
  [("on_x1", CVal.num ⟨250, 0⟩),
   ("on_sep1", CVal.num ⟨0, 0⟩),
   ("on_x2", CVal.num ⟨-170, 0⟩),
   ("on_sep2", CVal.num ⟨138, 3⟩),
   ("on_x5", CVal.num ⟨250, 0⟩),
   ("on_sep5", CVal.num ⟨0, 0⟩),
   ("on_x8h", CVal.num ⟨0, 1⟩),
   ("on_x8v", CVal.num ⟨170, 0⟩),
   ("on_crab1", CVal.num ⟨-190, 0⟩),
   ("on_crab5", CVal.num ⟨-190, 0⟩),
   ("i_oct_b1", CVal.num ⟨600, 1⟩),
   ("i_oct_b2", CVal.num ⟨600, 1⟩)]

/-- Source dict `d_config_leveling`: separation at IP2 and luminosity target
at IP8 (`2.0e33`). -/
def d_config_leveling : List (String × CVal) :=
  [("ip2", CVal.obj [("separation_in_sigmas", CVal.num ⟨5, 0⟩)]),
   ("ip8", CVal.obj [("luminosity", CVal.num ⟨2 * 10 ^ 33, 0⟩)])]

/-- Source: `skip_leveling_base_collider = False` (so the interactive
confirmation branch guarded by it is not entered). -/
def skip_leveling_base_collider : Bool := false

/-- Source dict `d_config_beambeam` after its assignments.  The
filling-scheme path is produced by `os.path.abspath` and the bunch numbers
by the interactive `get_worst_bunch` / `input()` resolution, so they enter
the embedding as parameters. -/
def d_config_beambeam (pattern_fname : String) (ib1 ib2 : ℤ) :
    List (String × CVal) :=
  [("mask_with_filling_pattern",
    CVal.obj
      [("pattern_fname", CVal.str pattern_fname),
       ("i_bunch_b1", CVal.num ⟨ib1, 0⟩),
       ("i_bunch_b2", CVal.num ⟨ib2, 0⟩)]),
   ("num_particles_per_bunch", CVal.num ⟨14 * 10 ^ 10, 0⟩),
   ("nemitt_x", CVal.num ⟨25, 7⟩),
   ("nemitt_y", CVal.num ⟨25, 7⟩)]

/-- The dict `children["base_collider"]["config_collider"]` after the
assignment sequence of the generator: starting from the mad configuration, the
script successively assigns `config_knobs_and_tuning` (the tune/chroma
dict, into which `knob_settings` was assigned), the
`skip_leveling_base_collider` flag, `config_lumi_leveling`, and
`config_beambeam`. -/
def config_collider_fields (pattern_fname : String) (ib1 ib2 : ℤ) :
    List (String × CVal) :=
  setField
    (setField
      (setField
        (setField d_config_mad ("config_knobs_and_tuning")
          (CVal.obj (setField d_config_tune_and_chroma ("knob_settings")
            (CVal.obj d_config_knobs))))
        ("skip_leveling_base_collider") (CVal.bool skip_leveling_base_collider))
      ("config_lumi_leveling") (CVal.obj d_config_leveling))
    ("config_beambeam") (CVal.obj (d_config_beambeam pattern_fname ib1 ib2))

/-- The configuration dictionary of one scan leaf, as the dict literal in
the scan loop builds it: the scanned tunes only under
`parameters_scanned.group_2`, the two relative artifact paths, the
tracking parameters, and the log file name. -/
def leafToCVal (l : LeafNode) : CVal :=
  CVal.obj
    [("parameters_scanned",
      CVal.obj [("group_2",
        CVal.obj [("qx", CVal.num ⟨l.qx, 4⟩), ("qy", CVal.num ⟨l.qy, 4⟩)])]),
     ("particle_file", CVal.str l.particle_file),
     ("collider_file", CVal.str l.collider_file),
     ("n_turns", CVal.num ⟨(l.turns : ℤ), 0⟩),
     ("delta_max", CVal.num l.dmax),
     ("log_file", CVal.str l.log_file)]

/-- The generated second-generation children as configuration
dictionaries. -/
def scan_children_cval : List (String × CVal) :=
  (scanChildren track_array array_qx array_qy only_keep_upper_triangle).map
    (fun p => (p.1, leafToCVal p.2))

/-- The single first-generation node `base_collider`, with its particles
configuration, collider configuration, and the scanned children. -/
def base_collider_node (pattern_fname : String) (ib1 ib2 : ℤ) : CVal :=
  CVal.obj
    [("config_particles", CVal.obj d_config_particles),
     ("config_collider",
      CVal.obj (config_collider_fields pattern_fname ib1 ib2)),
     ("children", CVal.obj scan_children_cval)]

/-- Source: `children = {"base_collider": {...}}`, the mapping assigned to
`config["root"]["children"]` — the children of the root. -/
def children (pattern_fname : String) (ib1 ib2 : ℤ) : List (String × CVal) :=
  [("base_collider", base_collider_node pattern_fname ib1 ib2)]

/-- C5: for every scan specification (and any environment-derived
parameters), the built tree has exactly one first-generation child under
the root — the `base_collider` node — and the scanned leaves are exactly
the children of that single base node. -/
theorem C5_single_base_child (pattern_fname : String) (ib1 ib2 : ℤ) :
    (children pattern_fname ib1 ib2).map Prod.fst = ["base_collider"]
    ∧ lookupPath (CVal.obj (children pattern_fname ib1 ib2))
        ["base_collider", "children"]
      = some (CVal.obj scan_children_cval) :=
  ⟨rfl, rfl⟩

/-- C3: generating the leaves never mutates the configuration of an ancestor —
after all leaves are created the base configuration still maps `qx` to
`62.31` and `qy` to `60.32` for both beams; every leaf carries its
scanned tunes only inside its own `parameters_scanned.group_2` mapping;
and resolving the configuration of a leaf by deep-merging its overrides over
the base node leaves every value the leaf does not override (such as the
base `qx`) at the base value while the scanned value of the leaf appears only
under its own override path. -/
theorem C3_leaf_overrides_do_not_touch_base (pattern_fname : String)
    (ib1 ib2 : ℤ) (idx track : Nat) (qx qy : ℤ) :
    numAt (CVal.obj (children pattern_fname ib1 ib2))
        ["base_collider", "config_collider", "config_knobs_and_tuning",
         "qx", "lhcb1"]
      = some ⟨6231, 2⟩
    ∧ numAt (CVal.obj (children pattern_fname ib1 ib2))
        ["base_collider", "config_collider", "config_knobs_and_tuning",
         "qx", "lhcb2"]
      = some ⟨6231, 2⟩
    ∧ numAt (CVal.obj (children pattern_fname ib1 ib2))
        ["base_collider", "config_collider", "config_knobs_and_tuning",
         "qy", "lhcb1"]
      = some ⟨6032, 2⟩
    ∧ numAt (CVal.obj (children pattern_fname ib1 ib2))
        ["base_collider", "config_collider", "config_knobs_and_tuning",
         "qy", "lhcb2"]
      = some ⟨6032, 2⟩
    ∧ ((scanChildren track_array array_qx array_qy only_keep_upper_triangle).all
        (fun p =>
          (keysAt (leafToCVal p.2) []
            == some ["parameters_scanned", "particle_file", "collider_file",
                 "n_turns", "delta_max", "log_file"])
          && (keysAt (leafToCVal p.2) ["parameters_scanned"]
            == some ["group_2"])
          && (keysAt (leafToCVal p.2) ["parameters_scanned", "group_2"]
            == some ["qx", "qy"])
          && (numAt (leafToCVal p.2) ["parameters_scanned", "group_2", "qx"]
            == some ⟨p.2.qx, 4⟩)
          && (numAt (leafToCVal p.2) ["parameters_scanned", "group_2", "qy"]
            == some ⟨p.2.qy, 4⟩))) = true
    ∧ numAt (deepMerge (base_collider_node pattern_fname ib1 ib2)
          (leafToCVal (mkLeaf idx track qx qy).2))
        ["config_collider", "config_knobs_and_tuning", "qx", "lhcb1"]
      = some ⟨6231, 2⟩
    ∧ numAt (deepMerge (base_collider_node pattern_fname ib1 ib2)
          (leafToCVal (mkLeaf idx track qx qy).2))
        ["parameters_scanned", "group_2", "qx"]
      = some ⟨qx, 4⟩ := by
  refine ⟨rfl, rfl, rfl, rfl, by decide, rfl, rfl⟩

/-- Truthiness of a configuration value, as the Python `bool(...)`. -/
def truthy : CVal → Bool
  | CVal.num d => !(d.mant == 0)
  | CVal.str s => !(s == "")
  | CVal.bool b => b
  | CVal.null => false
  | CVal.obj fs => !fs.isEmpty

/-- The leveling decision of the build job
(`if "config_lumi_leveling" in config_collider and not
config_collider["skip_leveling"]:`): leveling is performed iff
`config_lumi_leveling` is present and `skip_leveling` is falsy; by the
lazy `and`, the subscript `config_collider["skip_leveling"]` is evaluated
only when the first test passes, and it raises `KeyError` when the key is
absent. -/
def levelingDecision (config_collider : List (String × CVal)) :
    Except String Bool :=
  if (getField config_collider ("config_lumi_leveling")).isSome then
    match getField config_collider ("skip_leveling") with
    | some v => Except.ok (!truthy v)
    | none => Except.error ("KeyError: skip_leveling")
  else Except.ok false

/-- Helper: replacing the value of key `k` in place leaves lookups of a
different key unchanged. -/
theorem getField_map_set_ne (k k' : String) (v : CVal) (hne : k' ≠ k) :
    ∀ (fs : List (String × CVal)),
      getField (fs.map (fun p => if p.1 = k then (k, v) else p)) k'
        = getField fs k'
  | [] => rfl
  | (k0, w) :: fs => by
      rw [List.map_cons]
      by_cases h0 : (k0, w).1 = k
      · rw [if_pos h0]
        simp only [getField]
        have hk : k0 = k := h0
        rw [if_neg (fun h => hne h.symm),
          if_neg (fun h : k0 = k' => hne (h ▸ hk))]
        exact getField_map_set_ne k k' v hne fs
      · rw [if_neg h0]
        simp only [getField]
        by_cases h1 : k0 = k'
        · rw [if_pos h1, if_pos h1]
        · rw [if_neg h1, if_neg h1]
          exact getField_map_set_ne k k' v hne fs

/-- Helper: appending a new key leaves lookups of a different key
unchanged. -/
theorem getField_append_single_ne (k k' : String) (v : CVal) (hne : k' ≠ k) :
    ∀ (fs : List (String × CVal)),
      getField (fs ++ [(k, v)]) k' = getField fs k'
  | [] => by
      simp only [List.nil_append, getField]
      rw [if_neg (fun h => hne h.symm)]
  | (k0, w) :: fs => by
      rw [List.cons_append]
      simp only [getField]
      by_cases h1 : k0 = k'
      · rw [if_pos h1, if_pos h1]
      · rw [if_neg h1, if_neg h1]
        exact getField_append_single_ne k k' v hne fs

/-- Helper: a dict assignment to key `k` leaves lookups of a different key
unchanged. -/
theorem getField_setField_ne (k k' : String) (v : CVal) (hne : k' ≠ k)
    (fs : List (String × CVal)) :
    getField (setField fs k v) k' = getField fs k' := by
  rw [setField]
  by_cases hc : (fs.map Prod.fst).contains k
  · rw [if_pos hc]
    exact getField_map_set_ne k k' v hne fs
  · rw [if_neg hc]
    exact getField_append_single_ne k k' v hne fs

/-- C10: whether the build job performs luminosity leveling does not depend
on the `skip_leveling_base_collider` flag the generator writes — two
configurations differing only in the value assigned to that key yield the
same leveling decision (including the same `KeyError` behaviour), because
the condition in the build job reads only `config_lumi_leveling` and
`skip_leveling`; and the generator-produced collider configuration indeed
contains no `skip_leveling` key. -/
theorem C10_leveling_ignores_generator_flag (cfg : List (String × CVal))
    (v1 v2 : CVal) (pattern_fname : String) (ib1 ib2 : ℤ) :
    levelingDecision (setField cfg ("skip_leveling_base_collider") v1)
      = levelingDecision (setField cfg ("skip_leveling_base_collider") v2)
    ∧ getField (config_collider_fields pattern_fname ib1 ib2) ("skip_leveling")
      = none := by
  constructor
  · have h1 : ("config_lumi_leveling" : String)
        ≠ "skip_leveling_base_collider" := by decide
    have h2 : ("skip_leveling" : String)
        ≠ "skip_leveling_base_collider" := by decide
    simp only [levelingDecision]
    rw [getField_setField_ne _ _ v1 h1 cfg, getField_setField_ne _ _ v1 h2 cfg,
      getField_setField_ne _ _ v2 h1 cfg, getField_setField_ne _ _ v2 h2 cfg]
  · rfl

/-- A lifecycle tag, as written by `tree_maker.tag_json.tag_it`. -/
inductive Tag : Type where
  | started
  | completed
  | failed
deriving DecidableEq

/-- Outcome of one run of the build job: normal termination, or termination
by an uncaught exception; in both cases with the lifecycle tags written to
the log, in order. -/
inductive JobRun : Type where
  | ok (tags : List Tag)
  | crashed (tags : List Tag)
deriving DecidableEq

/-- The tags a run left behind. -/
def jobTags : JobRun → List Tag
  | JobRun.ok ts => ts
  | JobRun.crashed ts => ts

/-- Embedding of the lifecycle tagging of the build job
(`1_build_distr_and_collider.py`): a `started` tag is written before any
work, but only when `log_file` is present in the configuration; after the
work (distribution building, collider building, tuning, leveling, saving)
a `completed` tag is written — and reading `configuration["log_file"]` at
that point raises `KeyError` when the key is absent.  The script installs
no exception handler, so when the work itself raises
(`workSucceeds = false`, covering any failure), the run terminates with no
further tag written. -/
def buildJobRun (hasLogFile : Bool) (workSucceeds : Bool) : JobRun :=
  let ts := if hasLogFile then [Tag.started] else []
  if workSucceeds then
    if hasLogFile then JobRun.ok (ts ++ [Tag.completed])
    else JobRun.crashed ts
  else JobRun.crashed ts

/-- C6 counterexample: a run of the build job whose work fails terminates
with only the `started` tag — no `completed` and, contrary to the claim,
no `failed` tag, so the job can terminate without any terminal lifecycle
tag. -/
theorem C6_counterexample_no_terminal_tag :
    buildJobRun true false = JobRun.crashed [Tag.started]
    ∧ Tag.completed ∉ jobTags (buildJobRun true false)
    ∧ Tag.failed ∉ jobTags (buildJobRun true false) :=
  ⟨rfl, by decide, by decide⟩

/-- C6 amended: when `log_file` is present in its configuration, the build
job records `started` before performing any work and records `completed`
at successful termination; it never records a `failed` tag — a run whose
work fails terminates (by the uncaught exception) leaving only the
`started` tag, hence without a terminal lifecycle tag. -/
theorem C6_amended_started_completed_only (hasLogFile workSucceeds : Bool) :
    buildJobRun true true = JobRun.ok [Tag.started, Tag.completed]
    ∧ buildJobRun true false = JobRun.crashed [Tag.started]
    ∧ Tag.failed ∉ jobTags (buildJobRun hasLogFile workSucceeds) := by
  refine ⟨rfl, rfl, ?_⟩
  cases hasLogFile <;> cases workSucceeds <;> decide

/-- One step of the materialization phase of `001_make_folders.py`
(lines 293-314). -/
inductive MatStep : Type where
  | mkdir_target
  | chdir_target
  | initialize_tree
  | make_folders
  | rename_logs
deriving DecidableEq

/-- The only conceivable refusal of the materialization phase; the result
type of `materializeRun` makes refusal expressible, and the embedding
shows the code never produces it. -/
inductive MatError : Type where
  | alreadyMaterialized
deriving DecidableEq

/-- Embedding of the materialization phase of `001_make_folders.py`, as a
function of whether the target directory `scans/<study_name>` already
exists: the `os.makedirs` is guarded by `not os.path.exists(...)` and is
skipped when the target exists; in every case the script then changes
into the target directory, builds the tree object (`initialize(config)`),
materializes the folders (`root.make_folders(...)`), and renames the log
files.  There is no force flag and no refusal path. -/
def materializeRun (targetExists : Bool) : Except MatError (List MatStep) :=
  Except.ok
    ((if targetExists then [] else [MatStep.mkdir_target])
      ++ [MatStep.chdir_target, MatStep.initialize_tree, MatStep.make_folders,
          MatStep.rename_logs])

/-- The steps a materialization run performs (empty on refusal). -/
def matSteps : Except MatError (List MatStep) → List MatStep
  | Except.ok s => s
  | Except.error _ => []

/-- C7 counterexample: re-running materialization over a target directory
that already exists is not refused — the run succeeds, skips only the
directory creation, and proceeds to rebuild the tree and re-materialize
the folders over the existing tree, contrary to the claimed
`MaterializationConflict` refusal. -/
theorem C7_counterexample_rerun_not_refused :
    materializeRun true
      = Except.ok [MatStep.chdir_target, MatStep.initialize_tree,
          MatStep.make_folders, MatStep.rename_logs]
    ∧ materializeRun true ≠ Except.error MatError.alreadyMaterialized :=
  ⟨rfl, fun h => Except.noConfusion h⟩

/-- C7 amended: re-running materialization over an existing target directory
is not refused and there is no force flag: the run always succeeds, the
target-directory creation happens exactly when the target does not yet
exist, and folder materialization proceeds in every case (over the
existing tree when re-run). -/
theorem C7_amended_rerun_proceeds (targetExists : Bool) :
    (∃ steps, materializeRun targetExists = Except.ok steps)
    ∧ MatStep.make_folders ∈ matSteps (materializeRun targetExists)
    ∧ ((MatStep.mkdir_target ∈ matSteps (materializeRun targetExists))
        ↔ targetExists = false) := by
  cases targetExists
  · exact ⟨⟨_, rfl⟩, by decide, by decide⟩
  · exact ⟨⟨_, rfl⟩, by decide, by decide⟩

/-- Embedding of `np.linspace(start, stop, num, endpoint=False)`. -/
def np_linspace_noend (start stop : ℚ) (num : Nat) : List ℚ :=
  (List.range num).map (fun i => start + i * ((stop - start) / num))

/-- Embedding of `np.linspace(start, stop, num)` (endpoint included). -/
def np_linspace (start stop : ℚ) (num : Nat) : List ℚ :=
  (List.range num).map (fun i => start + i * ((stop - start) / (num - 1 : Nat)))

/-- The particle-distribution parameters the build job reads from its
materialized configuration (the values of `d_config_particles`). -/
structure ConfigParticles where
  r_min : ℚ
  r_max : ℚ
  n_r : Nat
  n_angles : Nat
  n_split : Nat

/-- The values the generator writes into `d_config_particles`. -/
def gen_config_particles : ConfigParticles := ⟨2, 10, 2 * 16 * (10 - 2), 5, 5⟩

/-- Source: `radial_list = np.linspace(r_min, r_max, n_r, endpoint=False)`. -/
def radial_list (c : ConfigParticles) : List ℚ :=
  np_linspace_noend c.r_min c.r_max c.n_r

/-- Source: `theta_list = np.linspace(0, 90, n_angles + 2)[1:-1]`. -/
def theta_list (c : ConfigParticles) : List ℚ :=
  ((np_linspace 0 90 (c.n_angles + 2)).drop 1).dropLast

/-- Source: the particle list, enumerating the cartesian product of the
radial and angular distributions with particle ids. -/
def particle_list (c : ConfigParticles) : List (Nat × ℚ × ℚ) :=
  (((radial_list c).flatMap
      (fun r => (theta_list c).map (fun th => (r, th)))).enum).map
    (fun p => (p.1, p.2.1, p.2.2))

/-- The chunk sizes of `np.array_split(lst, n)`: the first `len % n` chunks
have `len / n + 1` elements, the rest `len / n`. -/
def splitSizes (len n : Nat) : List Nat :=
  (List.range n).map (fun i => if i < len % n then len / n + 1 else len / n)

/-- Cutting a list into chunks of the given sizes. -/
def splitGo {α : Type} : List Nat → List α → List (List α)
  | [], _ => []
  | s :: sizes, l => l.take s :: splitGo sizes (l.drop s)

/-- Embedding of `np.array_split(lst, n)`: always exactly `n` chunks. -/
def array_split {α : Type} (l : List α) (n : Nat) : List (List α) :=
  splitGo (splitSizes l.length n) l

/-- Source: `collider.to_json("collider/collider.json")` — the path, relative
to the directory of the base job, at which it saves the collider. -/
def collider_save_path : String := "collider/collider.json"

/-- The parquet files the base job writes, relative to its directory: one
per chunk of the split particle distribution, named
`particles/<idx:02>.parquet`. -/
def writtenParquetFiles (c : ConfigParticles) : List String :=
  ((array_split (particle_list c) c.n_split).enum).map
    (fun p => "particles/" ++ pad 2 p.1 ++ ".parquet")

/-- C4: every leaf references its shared input artifacts by relative sibling
paths resolving to files the base job actually produces — each parquet
chunk file the base job writes is referenced by the `particle_file` of
some leaf as `../<file>`, the `particle_file` of every leaf is `../` in
front of one of those files, the base job writes exactly `n_split` of
them, and the `collider_file` of every leaf is `../` in front of the path at
which the base job saves the collider.  All references are relative
(`../`-prefixed sibling paths), so they remain resolvable when the whole
tree is relocated. -/
theorem C4_relative_artifact_paths :
    ((writtenParquetFiles gen_config_particles).all (fun s =>
        ((scanChildren track_array array_qx array_qy
            only_keep_upper_triangle).map
          (fun p => p.2.particle_file)).contains ("../" ++ s))) = true
    ∧ ((scanChildren track_array array_qx array_qy
          only_keep_upper_triangle).all
        (fun p => ((writtenParquetFiles gen_config_particles).map
            (fun s => "../" ++ s)).contains p.2.particle_file)) = true
    ∧ (writtenParquetFiles gen_config_particles).length
        = gen_config_particles.n_split
    ∧ ((scanChildren track_array array_qx array_qy
          only_keep_upper_triangle).all
        (fun p => p.2.collider_file == "../" ++ collider_save_path)) = true := by
  refine ⟨?_, ?_, ?_, ?_⟩ <;> decide
